import Mathlib

/-!
Verification of the Homematic bridge component
(homeassistant/components/homematic.py).

The Python module is embedded shallowly: Python dicts become association
lists (insertion-ordered, like Python dicts), Python exceptions become an
explicit `PyExn` value threaded through `Except` or `Option PyExn` results,
and the RPC side effects of the hub connection (reads, event subscription,
the inter-link sleep) are recorded as an explicit trace of `RPCCall`
values.  Machine floats only ever flow through the code as opaque scalar
values, so they are represented as rationals.
-/

set_option maxRecDepth 4096

/-- Python runtime values as they flow through the component: booleans,
integers, floats (represented as rationals; no float arithmetic is
performed by the code), strings and `None`. -/
inductive PyVal where
  | bool (b : Bool)
  | int (n : Int)
  | float (q : Rat)
  | str (s : String)
  | pynone
deriving DecidableEq, Repr

/-- Python exception classes that the embedded code can raise. -/
inductive PyExn where
  | typeError
  | valueError
  | indexError
  | attributeError
  | notImplementedError
  | invalid
  | other (msg : String)
deriving DecidableEq, Repr

/-- Python truthiness, the builtin `bool(value)`. -/
def pyTruthy : PyVal → Bool
  | PyVal.bool b => b
  | PyVal.int n => decide (n ≠ 0)
  | PyVal.float q => decide (q ≠ 0)
  | PyVal.str s => decide (s ≠ "")
  | PyVal.pynone => false

/-- Channel indicator attached to a metadata node by the hub connection
library: the string `"c"` (channel bound), Python `None` (unspecified), or
a fixed integer channel. -/
inductive MetaChan where
  | c
  | null
  | num (n : Int)
deriving DecidableEq, Repr

/-- Python dict lookup on an insertion-ordered association list. -/
def lookupKey {α β : Type} [DecidableEq α] (k : α) : List (α × β) → Option β
  | [] => Option.none
  | p :: t => if p.1 = k then some p.2 else lookupKey k t

/-- Python dict assignment `d[k] = v`: replace the value in place when the
key exists, append a new entry otherwise. -/
def dictUpdate {α β : Type} [DecidableEq α] (d : List (α × β)) (k : α) (v : β) :
    List (α × β) :=
  if (lookupKey k d).isSome then
    d.map fun p => if p.1 = k then (k, v) else p
  else d ++ [(k, v)]

/-- HM_IGNORE_DISCOVERY_NODE from the source. -/
def HM_IGNORE_DISCOVERY_NODE : List String :=
  ["ACTUAL_TEMPERATURE", "ACTUAL_HUMIDITY"]

/-- HM_PRESS_EVENTS from the source. -/
def HM_PRESS_EVENTS : List String :=
  ["PRESS_SHORT", "PRESS_LONG", "PRESS_CONT", "PRESS_LONG_RELEASE"]

/-- HM_IMPULSE_EVENTS from the source. -/
def HM_IMPULSE_EVENTS : List String :=
  ["SEQUENCE_OK"]

/-- The six discovery categories (DISCOVER_SWITCHES .. DISCOVER_CLIMATE). -/
inductive DeviceType where
  | switches
  | lights
  | sensors
  | binarySensors
  | cover
  | climate
deriving DecidableEq, Repr

/-- HM_DEVICE_TYPES from the source: accepted device class names per
discovery category. -/
def HM_DEVICE_TYPES : DeviceType → List String
  | DeviceType.switches => ["Switch", "SwitchPowermeter"]
  | DeviceType.lights => ["Dimmer"]
  | DeviceType.sensors =>
      ["SwitchPowermeter", "Motion", "MotionV2", "RemoteMotion",
       "ThermostatWall", "AreaThermostat", "RotaryHandleSensor",
       "WaterSensor", "PowermeterGas", "LuxSensor", "WeatherSensor",
       "WeatherStation"]
  | DeviceType.climate => ["Thermostat", "ThermostatWall", "MAXThermostat"]
  | DeviceType.binarySensors =>
      ["ShutterContact", "Smoke", "SmokeV2", "Motion", "MotionV2",
       "RemoteMotion", "WeatherSensor", "TiltSensor"]
  | DeviceType.cover => ["Blind"]

/-- A pyhomematic remote device as consumed by this component: class name,
element count, unreachable flag and the six metadata node dicts. -/
structure HubDevice where
  NAME : String
  ADDRESS : String
  className : String
  ELEMENT : Nat
  UNREACH : Bool
  SENSORNODE : List (String × MetaChan)
  BINARYNODE : List (String × MetaChan)
  ATTRIBUTENODE : List (String × MetaChan)
  WRITENODE : List (String × MetaChan)
  EVENTNODE : List (String × MetaChan)
  ACTIONNODE : List (String × MetaChan)
deriving DecidableEq, Repr

/-- Source `_create_ha_name(name, channel, param)`.  The four guarded
branches of the source are kept verbatim; when no branch fires (only
possible for channel below 1) the Python function falls through and
returns `None`. -/
def create_ha_name (name : String) (channel : Int) (param : Option String) :
    Option String :=
  if channel = 1 ∧ param = Option.none then
    some name
  else if channel > 1 ∧ param = Option.none then
    some (name ++ " " ++ toString channel)
  else if channel = 1 ∧ param ≠ Option.none then
    some (name ++ " " ++ param.getD "")
  else if channel > 1 ∧ param ≠ Option.none then
    some (name ++ " " ++ toString channel ++ " " ++ param.getD "")
  else
    Option.none

/-- Merge flag from `_create_params_list`: set for the sensor and
binary-sensor categories. -/
def mergeFor : DeviceType → Bool
  | DeviceType.sensors => true
  | DeviceType.binarySensors => true
  | _ => false

/-- Inner loop of `_create_params_list` for a single channel: node names
of the metadata dict that are not ignore-listed and whose channel
indicator is the string c or None, plus, on channel 1 only, nodes with
any other (fixed) indicator. -/
def param_chan (metadata : List (String × MetaChan)) (channel : Nat) :
    List String :=
  metadata.filterMap fun nm =>
    if nm.1 ∈ HM_IGNORE_DISCOVERY_NODE then Option.none
    else if nm.2 = MetaChan.c ∨ nm.2 = MetaChan.null then some nm.1
    else if channel = 1 then some nm.1
    else Option.none

/-- Per-channel parameter list of `_create_params_list`, including the
default `None` entry appended when the channel collected nothing and the
category does not merge. -/
def chan_params (metadata : List (String × MetaChan)) (merge : Bool)
    (channel : Nat) : List (Option String) :=
  let pc := (param_chan metadata channel).map some
  if pc.length = 0 ∧ merge = false then [Option.none] else pc

/-- Channels 1 .. n, the Python `range(1, ELEMENT + 1)`. -/
def channelsRange (n : Nat) : List Nat :=
  (List.range n).map (fun i => i + 1)

/-- Source `_create_params_list(hmdevice, metadata, device_type)`: dict
from channel to its parameter list, omitting channels whose list stayed
empty. -/
def create_params_list (hmdevice : HubDevice)
    (metadata : List (String × MetaChan)) (device_type : DeviceType) :
    List (Nat × List (Option String)) :=
  (channelsRange hmdevice.ELEMENT).filterMap fun channel =>
    let pc := chan_params metadata (mergeFor device_type) channel
    if pc.length > 0 then some (channel, pc) else Option.none

/-- Metadata loaded by `_get_devices` for the category: SENSORNODE for
sensors, BINARYNODE for binary sensors, the empty dict otherwise. -/
def metadataFor (device : HubDevice) : DeviceType → List (String × MetaChan)
  | DeviceType.sensors => device.SENSORNODE
  | DeviceType.binarySensors => device.BINARYNODE
  | _ => []

/-- The device config dict assembled by `_get_devices` and validated
against DEVICE_SCHEMA. -/
structure DeviceDict where
  platform : String
  address : String
  name : String
  channel : Nat
  param : Option String
deriving DecidableEq, Repr

/-- Entities generated by `_get_devices` for one channel of one device:
one entry per parameter in the channel parameter list.  DEVICE_SCHEMA
requires the name to be a string, so a config whose generated name is
Python `None` (create_ha_name falling through) fails validation and is
dropped with a logged error. -/
def entities_for_channel (device : HubDevice) (key : String)
    (device_type : DeviceType) (channel : Nat) : List DeviceDict :=
  match lookupKey channel
      (create_params_list device (metadataFor device device_type) device_type) with
  | some ps =>
      ps.filterMap fun p =>
        (create_ha_name device.NAME (channel : Int) p).map fun nm =>
          { platform := "homematic", address := key, name := nm,
            channel := channel, param := p }
  | Option.none => []

/-- Body of the `_get_devices` loop for a single device key: class-name
gate, parameter list construction, then one config dict per surviving
(channel, parameter) pair. -/
def get_devices_one (key : String) (device : HubDevice)
    (device_type : DeviceType) : List DeviceDict :=
  if device.className ∈ HM_DEVICE_TYPES device_type then
    if (create_params_list device (metadataFor device device_type)
        device_type).isEmpty then []
    else (channelsRange device.ELEMENT).flatMap
        (entities_for_channel device key device_type)
  else []

/-- State of a `HMDevice` adapter entity: fields `_name`, `_address`,
`_channel`, `_state` (the primary parameter name), `_data`, `_hmdevice`,
`_connected`, `_available`. -/
structure HMDeviceState where
  name : String
  address : String
  channel : Nat
  param : Option String
  data : List (String × PyVal)
  hmdevice : Option HubDevice
  connected : Bool
  available : Bool
deriving DecidableEq, Repr

/-- Source `HMDevice._hm_event_callback(device, caller, attribute, value)`.
Returns the new adapter state and whether `update_ha_state` was invoked.
The source guards the availability branch with the CPython identity test
`attribute is UNREACH-literal`; it is embedded as string equality, the
case in which the interned-literal comparison succeeds. -/
def hm_event_callback (s : HMDeviceState) (attrName : String) (value : PyVal) :
    HMDeviceState × Bool :=
  let step1 :=
    match lookupKey attrName s.data with
    | some old =>
        if old ≠ value then (dictUpdate s.data attrName value, true)
        else (s.data, false)
    | Option.none => (s.data, false)
  let step2 :=
    if attrName = "UNREACH" then (pyTruthy value, true)
    else (s.available, step1.2)
  ({ s with data := step1.1, available := step2.1 }, step2.2)

/-- Source `HMDevice._hm_set_state(value)`: write the primary parameter
cache entry only when it is already present. -/
def hm_set_state (s : HMDeviceState) (value : PyVal) : HMDeviceState :=
  match s.param with
  | some p =>
      if (lookupKey p s.data).isSome then
        { s with data := dictUpdate s.data p value }
      else s
  | Option.none => s

/-- Source `HMDevice._hm_get_state()`. -/
def hm_get_state (s : HMDeviceState) : Option PyVal :=
  match s.param with
  | some p => lookupKey p s.data
  | Option.none => Option.none

/-- The four readable metadata categories pulled by
`_load_data_from_hm`, in source order. -/
inductive ReadKind where
  | attrData
  | writeData
  | sensorData
  | binaryData
deriving DecidableEq, Repr

/-- Observable hub RPC effects recorded while linking. -/
inductive RPCCall where
  | read (kind : ReadKind) (node : String) (channel : Nat)
  | subscribe (channel : Int)
  | sleepDelay
deriving DecidableEq, Repr

/-- Environment seen by `link_homematic`: the module global HOMEMATIC
(`none` when the hub connection is absent, otherwise its `devices` dict),
the HOMEMATIC_LINK_DELAY global, the behaviour of the device RPC reads
and of `setEventCallback`, and the abstract subclass hook
`_init_data_struct` (which mutates the data dict and may raise; the base
class raises NotImplementedError). -/
structure LinkEnv where
  devices : Option (List (String × HubDevice))
  linkDelay : Rat
  readData : ReadKind → String → Nat → Except PyExn PyVal
  subscribeResult : Int → Except PyExn Unit
  initDataStruct : List (String × PyVal) →
    List (String × PyVal) × Option PyExn

/-- Source `HMDevice._init_data`: default every ATTRIBUTENODE entry to the
STATE_UNKNOWN sentinel, then run the subclass hook. -/
def init_data (env : LinkEnv) (dev : HubDevice)
    (data : List (String × PyVal)) : List (String × PyVal) × Option PyExn :=
  let d := dev.ATTRIBUTENODE.foldl
    (fun acc nm => dictUpdate acc nm.1 (PyVal.str "unknown")) data
  env.initDataStruct d

/-- One metadata category of `_load_data_from_hm`: read every node already
present in the data cache, recording the RPC call; a raising read aborts
with the data mutated so far. -/
def load_nodes (env : LinkEnv) (kind : ReadKind) (channel : Nat) :
    List (String × MetaChan) → List (String × PyVal) →
    List RPCCall × List (String × PyVal) × Option PyExn
  | [], data => ([], data, Option.none)
  | nm :: rest, data =>
      if (lookupKey nm.1 data).isSome then
        match env.readData kind nm.1 channel with
        | Except.ok v =>
            let r := load_nodes env kind channel rest (dictUpdate data nm.1 v)
            (RPCCall.read kind nm.1 channel :: r.1, r.2.1, r.2.2)
        | Except.error e =>
            ([RPCCall.read kind nm.1 channel], data, some e)
      else load_nodes env kind channel rest data

/-- Source `HMDevice._load_data_from_hm` as called during linking (the
`self._connected` guard is true at that point): the four categories in
source order, aborting at the first raising read. -/
def load_data_from_hm (env : LinkEnv) (dev : HubDevice) (channel : Nat)
    (data : List (String × PyVal)) :
    List RPCCall × List (String × PyVal) × Option PyExn :=
  match load_nodes env ReadKind.attrData channel dev.ATTRIBUTENODE data with
  | (t1, d1, some e) => (t1, d1, some e)
  | (t1, d1, Option.none) =>
    match load_nodes env ReadKind.writeData channel dev.WRITENODE d1 with
    | (t2, d2, some e) => (t1 ++ t2, d2, some e)
    | (t2, d2, Option.none) =>
      match load_nodes env ReadKind.sensorData channel dev.SENSORNODE d2 with
      | (t3, d3, some e) => (t1 ++ t2 ++ t3, d3, some e)
      | (t3, d3, Option.none) =>
        match load_nodes env ReadKind.binaryData channel dev.BINARYNODE d3 with
        | (t4, d4, r) => (t1 ++ t2 ++ t3 ++ t4, d4, r)

/-- Resolution of a metadata channel indicator inside
`_subscribe_homematic_events`: the string c and None mean the adapter
channel, an integer stands for itself. -/
def resolveChan (selfChannel : Nat) : MetaChan → Int
  | MetaChan.c => (selfChannel : Int)
  | MetaChan.null => (selfChannel : Int)
  | MetaChan.num n => n

/-- Insertion into the `channels_to_sub` dict (keys only, insertion
ordered). -/
def insertChan (l : List Int) (c : Int) : List Int :=
  if c ∈ l then l else l ++ [c]

/-- Channel set collected by `_subscribe_homematic_events` over the six
metadata dicts in source order, keeping nodes present in the data cache
and non-negative resolved channels.  With the `MetaChan` value space the
`int(channel)` conversion cannot raise, so the logging branch of the
source (itself a TypeError, the logger object is not callable) is
unreachable. -/
def channelsToSub (selfChannel : Nat) (data : List (String × PyVal))
    (dev : HubDevice) : List Int :=
  (dev.SENSORNODE ++ dev.BINARYNODE ++ dev.ATTRIBUTENODE ++ dev.WRITENODE ++
      dev.EVENTNODE ++ dev.ACTIONNODE).foldl
    (fun acc nm =>
      if (lookupKey nm.1 data).isSome then
        let ch := resolveChan selfChannel nm.2
        if 0 ≤ ch then insertChan acc ch else acc
      else acc) []

/-- Subscription loop of `_subscribe_homematic_events`: one
`setEventCallback` per collected channel, aborting on a raising call. -/
def subscribe_events (env : LinkEnv) :
    List Int → List RPCCall × Option PyExn
  | [] => ([], Option.none)
  | c :: rest =>
      match env.subscribeResult c with
      | Except.ok _ =>
          let r := subscribe_events env rest
          (RPCCall.subscribe c :: r.1, r.2)
      | Except.error e => ([RPCCall.subscribe c], some e)

/-- The try block of `link_homematic`: init the data cache, sleep the
configured link delay if non-zero, pull initial data, subscribe events,
then set availability to the negation of the UNREACH flag.  Returns the
RPC trace, the adapter state reached (partial mutations are kept when a
step raises) and the raised exception if any. -/
def link_try_body (env : LinkEnv) (dev : HubDevice) (s : HMDeviceState) :
    List RPCCall × HMDeviceState × Option PyExn :=
  match init_data env dev s.data with
  | (d1, some e) => ([], { s with data := d1 }, some e)
  | (d1, Option.none) =>
    let dTrace := if env.linkDelay = 0 then [] else [RPCCall.sleepDelay]
    match load_data_from_hm env dev s.channel d1 with
    | (t2, d2, some e) => (dTrace ++ t2, { s with data := d2 }, some e)
    | (t2, d2, Option.none) =>
      match subscribe_events env (channelsToSub s.channel d2 dev) with
      | (t3, some e) => (dTrace ++ t2 ++ t3, { s with data := d2 }, some e)
      | (t3, Option.none) =>
          (dTrace ++ t2 ++ t3,
           { s with data := d2, available := !dev.UNREACH }, Option.none)

/-- Source `HMDevice.link_homematic`.  Python returns `True` when already
linked, `False` when HOMEMATIC is absent, and falls through returning
`None` otherwise; the broad `except Exception` resets `_connected` and
returns normally, reflected here by a total return type. -/
def link_homematic (env : LinkEnv) (s : HMDeviceState) :
    Option Bool × HMDeviceState × List RPCCall :=
  if s.connected then (some true, s, [])
  else
    match env.devices with
    | Option.none => (some false, s, [])
    | some devs =>
      match lookupKey s.address devs with
      | some dev =>
          let s1 := { s with hmdevice := some dev, connected := true }
          match link_try_body env dev s1 with
          | (t, s2, Option.none) => (Option.none, s2, t)
          | (t, s2, some _) =>
              (Option.none, { s2 with connected := false }, t)
      | Option.none => (Option.none, s, [])

/-- Decimal digits to a natural number. -/
def digitsToNat (cs : List Char) : Nat :=
  cs.foldl (fun a c => a * 10 + (c.toNat - 48)) 0

/-- Python `str.split` on a colon, without limit: the list of maximal
colon-free segments (an input without a colon yields a single segment). -/
def splitColonChars : List Char → List (List Char)
  | [] => [[]]
  | c :: rest =>
      let r := splitColonChars rest
      if c = ':' then [] :: r
      else
        match r with
        | h :: t => (c :: h) :: t
        | [] => [[c]]

/-- Python `device.split(":")` as used by the event handler. -/
def splitColon (s : String) : List String :=
  (splitColonChars s.toList).map fun cs => String.mk cs

/-- Python `int(s)` on a string: optional sign followed by decimal digits
(surrounding-whitespace tolerance omitted); anything else raises
ValueError, reported here as `Option.none`. -/
def parseIntStr (s : String) : Option Int :=
  match s.toList with
  | '-' :: rest =>
      if rest.isEmpty = false ∧ rest.all Char.isDigit then
        some (-(digitsToNat rest : Int))
      else Option.none
  | '+' :: rest =>
      if rest.isEmpty = false ∧ rest.all Char.isDigit then
        some ((digitsToNat rest : Int))
      else Option.none
  | cs =>
      if cs.isEmpty = false ∧ cs.all Char.isDigit then
        some ((digitsToNat cs : Int))
      else Option.none

/-- Outcome of `_hm_event_handler` when it returns normally. -/
inductive RouterResult where
  | droppedParse
  | notEvent
  | keypress (name : String) (paramName : String) (channel : Int)
  | impulse (name : String) (channel : Int)
  | unknownWarned
deriving DecidableEq, Repr

/-- Source `_hm_event_handler(hass, device, caller, attribute, value)`.
The try block catches only TypeError and ValueError: a `None` device
string (TypeError on split) and a non-numeric channel part (ValueError on
int) are logged and dropped, but a colon-free device string raises
IndexError at `split(":")[1]`, and an address absent from
HOMEMATIC.devices leaves `hmdevice = None` so the EVENTNODE membership
test after the try block raises AttributeError; both escape to the
caller. -/
def hm_event_handler (devices : List (String × HubDevice))
    (device : Option String) (attrName : String) (_value : PyVal) :
    Except PyExn RouterResult :=
  match device with
  | Option.none => Except.ok RouterResult.droppedParse
  | some devStr =>
    let parts := splitColon devStr
    match parts[1]? with
    | Option.none => Except.error PyExn.indexError
    | some chStr =>
      match parseIntStr chStr with
      | Option.none => Except.ok RouterResult.droppedParse
      | some channel =>
        let address := parts.headD ""
        match lookupKey address devices with
        | Option.none => Except.error PyExn.attributeError
        | some hmdev =>
            if (lookupKey attrName hmdev.EVENTNODE).isSome then
              if attrName ∈ HM_PRESS_EVENTS then
                Except.ok (RouterResult.keypress hmdev.NAME attrName channel)
              else if attrName ∈ HM_IMPULSE_EVENTS then
                Except.ok (RouterResult.impulse hmdev.NAME channel)
              else Except.ok RouterResult.unknownWarned
            else Except.ok RouterResult.notEvent

/-- Outcome tag of the virtualkey service handler. -/
inductive VKResult where
  | unknownAddress
  | unknownParam
  | badChannel
  | called
deriving DecidableEq, Repr

/-- A downstream `actionNodeData(param, 1, channel)` invocation. -/
structure ActionCall where
  param : String
  value : Int
  channel : Int
deriving DecidableEq, Repr

/-- Source `_hm_service_virtualkey(call)`: unknown address and unknown
parameter abort with a logged error; the only channel check is
`channel > hmdevice.ELEMENT`; otherwise one downstream action call with
data 1 is made. -/
def hm_service_virtualkey (devices : List (String × HubDevice))
    (address : String) (channel : Int) (param : String) :
    VKResult × List ActionCall :=
  match lookupKey address devices with
  | Option.none => (VKResult.unknownAddress, [])
  | some hmdev =>
      if (lookupKey param hmdev.ACTIONNODE).isSome = false then
        (VKResult.unknownParam, [])
      else if channel > (hmdev.ELEMENT : Int) then
        (VKResult.badChannel, [])
      else
        (VKResult.called, [{ param := param, value := 1, channel := channel }])

/-- State of a `HMVariable` entity. -/
structure HMVariableState where
  name : String
  state : PyVal
deriving DecidableEq, Repr

/-- Python `isinstance(v, bool)`. -/
def isBoolVal : PyVal → Bool
  | PyVal.bool _ => true
  | _ => false

/-- Modelled from the spec: the hosting platform boolean coercion helper
`cv.boolean`, which is not part of src/.  Recognized truthy and falsy
string spellings map to booleans, other strings are invalid; non-string
values coerce by Python truthiness. -/
def cv_boolean : PyVal → Except PyExn PyVal
  | PyVal.str s =>
      let l := s.toLower
      if l = "1" ∨ l = "true" ∨ l = "yes" ∨ l = "on" ∨ l = "enable" then
        Except.ok (PyVal.bool true)
      else if l = "0" ∨ l = "false" ∨ l = "no" ∨ l = "off" ∨ l = "disable" then
        Except.ok (PyVal.bool false)
      else Except.error PyExn.invalid
  | v => Except.ok (PyVal.bool (pyTruthy v))

/-- Parse of a plain decimal float literal (optional sign, digits around
at most one dot; exponent and special spellings omitted). -/
def parseFloatStr (s : String) : Option Rat :=
  let withSign :
      Bool × List Char :=
    match s.toList with
    | '-' :: rest => (true, rest)
    | '+' :: rest => (false, rest)
    | cs => (false, cs)
  let segs := withSign.2.splitOn '.'
  let build (a b : List Char) : Option Rat :=
    if a.isEmpty ∧ b.isEmpty then Option.none
    else if a.all Char.isDigit ∧ b.all Char.isDigit then
      some ((if withSign.1 then (-1 : Rat) else 1) *
        ((digitsToNat a : Rat) + (digitsToNat b : Rat) / ((10 : Rat) ^ b.length)))
    else Option.none
  match segs with
  | [a] => build a []
  | [a, b] => build a b
  | _ => Option.none

/-- Python builtin `float(value)`: numbers and booleans convert, strings
parse or raise ValueError, `None` raises TypeError. -/
def pyFloat : PyVal → Except PyExn PyVal
  | PyVal.bool b => Except.ok (PyVal.float (if b then 1 else 0))
  | PyVal.int n => Except.ok (PyVal.float (n : Rat))
  | PyVal.float q => Except.ok (PyVal.float q)
  | PyVal.str s =>
      match parseFloatStr s with
      | some q => Except.ok (PyVal.float q)
      | Option.none => Except.error PyExn.valueError
  | PyVal.pynone => Except.error PyExn.typeError

/-- Source `HMVariable.hm_set(value)`.  Returns the `setSystemVariable`
writes issued, the resulting local state, whether `update_ha_state` was
signalled, and the exception escaping the method if the coercion raised
(the coercion runs before the hub write and the local assignment, so a
raise leaves both untouched). -/
def hm_set (hubPresent : Bool) (s : HMVariableState) (value : PyVal) :
    List (String × PyVal) × HMVariableState × Bool × Option PyExn :=
  if hubPresent then
    match (if isBoolVal s.state then cv_boolean value else pyFloat value) with
    | Except.error e => ([], s, false, some e)
    | Except.ok v =>
        ([(s.name, v)], { s with state := v }, true, Option.none)
  else ([], s, false, Option.none)

/-- Source `HMVariable.hm_update(value)`: delta-triggered refresh. -/
def hm_update (s : HMVariableState) (value : PyVal) : HMVariableState × Bool :=
  if value ≠ s.state then ({ s with state := value }, true) else (s, false)

/-- Concrete fixture: a remote device with empty metadata. -/
def emptyHub : HubDevice :=
  { NAME := "hub-device", ADDRESS := "ABC123", className := "Switch",
    ELEMENT := 1, UNREACH := false, SENSORNODE := [], BINARYNODE := [],
    ATTRIBUTENODE := [], WRITENODE := [], EVENTNODE := [], ACTIONNODE := [] }

/-- Concrete fixture: a device with one action node, for the virtualkey
service. -/
def vkDevice : HubDevice :=
  { emptyHub with ACTIONNODE := [("PRESS_SHORT", MetaChan.num 1)] }

/-- Concrete fixture: the Motion sensor scenario of the spec. -/
def motionDevice : HubDevice :=
  { emptyHub with
    className := "Motion",
    SENSORNODE := [("ACTUAL_TEMPERATURE", MetaChan.c), ("MOTION", MetaChan.c)] }

/-- Concrete fixture: an already linked adapter with an empty cache. -/
def demoLinked : HMDeviceState :=
  { name := "demo", address := "ABC123", channel := 1, param := Option.none,
    data := [], hmdevice := Option.none, connected := true, available := true }

/-- Concrete fixture: an unlinked adapter. -/
def demoUnlinked : HMDeviceState :=
  { demoLinked with connected := false, available := false }

/-- Concrete fixture: a linked adapter holding one cache entry. -/
def demoCached : HMDeviceState :=
  { demoLinked with data := [("LEVEL", PyVal.float 0)], param := some "LEVEL" }

/-- Concrete fixture: a link environment with no hub connection whose
subclass hook raises NotImplementedError (the base-class behaviour). -/
def envNone : LinkEnv :=
  { devices := Option.none, linkDelay := 0,
    readData := fun _ _ _ => Except.ok (PyVal.str "unknown"),
    subscribeResult := fun _ => Except.ok (),
    initDataStruct := fun d => (d, some PyExn.notImplementedError) }

/-! Helper lemmas shared by the claim theorems. -/

lemma create_ha_name_pos_total (name : String) (channel : Int)
    (param : Option String) (h : 1 ≤ channel) :
    (create_ha_name name channel param).isSome = true := by
  rcases param with _ | p <;> unfold create_ha_name <;>
    split_ifs <;> simp_all <;> omega

lemma channelsRange_nodup (n : Nat) : (channelsRange n).Nodup :=
  (List.nodup_range n).map fun a b hab => by omega

lemma mem_channelsRange {n ch : Nat} :
    ch ∈ channelsRange n ↔ 1 ≤ ch ∧ ch ≤ n := by
  unfold channelsRange
  simp only [List.mem_map, List.mem_range]
  constructor
  · rintro ⟨i, hi, rfl⟩; omega
  · rintro ⟨ha, hb⟩; exact ⟨ch - 1, by omega, by omega⟩

lemma lookupKey_ifFilterMap_notMem {β : Type} (P : Nat → Prop)
    [DecidablePred P] (f : Nat → β) (l : List Nat) (ch : Nat) (h : ch ∉ l) :
    lookupKey ch
      (l.filterMap fun c => if P c then some (c, f c) else Option.none)
      = Option.none := by
  induction l with
  | nil => rfl
  | cons c t ih =>
      have hc : ¬(c = ch) := fun e => h (e ▸ List.mem_cons_self c t)
      have ht : ch ∉ t := fun m => h (List.mem_cons_of_mem _ m)
      by_cases hp : P c
      · simp [List.filterMap_cons, hp, lookupKey, hc, ih ht]
      · simp [List.filterMap_cons, hp, ih ht]

lemma lookupKey_ifFilterMap_mem {β : Type} (P : Nat → Prop)
    [DecidablePred P] (f : Nat → β) (l : List Nat) (ch : Nat)
    (hnd : l.Nodup) (hmem : ch ∈ l) :
    lookupKey ch
      (l.filterMap fun c => if P c then some (c, f c) else Option.none)
      = if P ch then some (f ch) else Option.none := by
  induction l with
  | nil => cases hmem
  | cons c t ih =>
      obtain ⟨hcnot, hndt⟩ := List.nodup_cons.mp hnd
      rcases List.mem_cons.mp hmem with hec | hmt
      · subst hec
        by_cases hp : P ch
        · simp [List.filterMap_cons, hp, lookupKey]
        · simp [List.filterMap_cons, hp,
            lookupKey_ifFilterMap_notMem P f t ch hcnot]
      · have hc : ¬(c = ch) := fun e => hcnot (e ▸ hmt)
        by_cases hp : P c
        · simp [List.filterMap_cons, hp, lookupKey, hc, ih hndt hmt]
        · simp [List.filterMap_cons, hp, ih hndt hmt]

lemma create_params_list_lookup (dev : HubDevice)
    (metadata : List (String × MetaChan)) (dt : DeviceType) (ch : Nat)
    (h1 : 1 ≤ ch) (h2 : ch ≤ dev.ELEMENT) :
    lookupKey ch (create_params_list dev metadata dt)
      = if 0 < (chan_params metadata (mergeFor dt) ch).length
        then some (chan_params metadata (mergeFor dt) ch)
        else Option.none :=
  lookupKey_ifFilterMap_mem
    (fun c => 0 < (chan_params metadata (mergeFor dt) c).length)
    (fun c => chan_params metadata (mergeFor dt) c)
    (channelsRange dev.ELEMENT) ch (channelsRange_nodup _)
    (mem_channelsRange.mpr ⟨h1, h2⟩)

lemma mem_param_chan (metadata : List (String × MetaChan)) (ch : Nat)
    (node : String) :
    node ∈ param_chan metadata ch ↔
      ∃ m, (node, m) ∈ metadata ∧ node ∉ HM_IGNORE_DISCOVERY_NODE ∧
        (m = MetaChan.c ∨ m = MetaChan.null ∨
          (ch = 1 ∧ ∃ k, m = MetaChan.num k)) := by
  unfold param_chan
  rw [List.mem_filterMap]
  constructor
  · rintro ⟨⟨n, m⟩, hmem, hf⟩
    replace hf :
        (if n ∈ HM_IGNORE_DISCOVERY_NODE then Option.none
         else if m = MetaChan.c ∨ m = MetaChan.null then some n
         else if ch = 1 then some n
         else Option.none) = some node := hf
    by_cases hig : n ∈ HM_IGNORE_DISCOVERY_NODE
    · rw [if_pos hig] at hf; cases hf
    · rw [if_neg hig] at hf
      by_cases hcm : m = MetaChan.c ∨ m = MetaChan.null
      · rw [if_pos hcm] at hf
        injection hf with hn
        subst hn
        rcases hcm with hcm | hcm
        · exact ⟨m, hmem, hig, Or.inl hcm⟩
        · exact ⟨m, hmem, hig, Or.inr (Or.inl hcm)⟩
      · rw [if_neg hcm] at hf
        by_cases hch : ch = 1
        · rw [if_pos hch] at hf
          injection hf with hn
          subst hn
          rcases m with _ | _ | k
          · exact absurd (Or.inl rfl) hcm
          · exact absurd (Or.inr rfl) hcm
          · exact ⟨MetaChan.num k, hmem, hig,
              Or.inr (Or.inr ⟨hch, k, rfl⟩)⟩
        · rw [if_neg hch] at hf; cases hf
  · rintro ⟨m, hmem, hig, hcase⟩
    refine ⟨(node, m), hmem, ?_⟩
    show (if node ∈ HM_IGNORE_DISCOVERY_NODE then Option.none
      else if m = MetaChan.c ∨ m = MetaChan.null then some node
      else if ch = 1 then some node
      else Option.none) = some node
    rw [if_neg hig]
    rcases hcase with rfl | rfl | ⟨hch, k, rfl⟩
    · rw [if_pos (Or.inl rfl)]
    · rw [if_pos (Or.inr rfl)]
    · have hne : ¬(MetaChan.num k = MetaChan.c ∨
          MetaChan.num k = MetaChan.null) := by
        rintro (h | h) <;> exact MetaChan.noConfusion h
      rw [if_neg hne, if_pos hch]

lemma entities_channel_eq (device : HubDevice) (key : String)
    (dt : DeviceType) (c : Nat) :
    ∀ e ∈ entities_for_channel device key dt c, e.channel = c := by
  intro e he
  unfold entities_for_channel at he
  cases hlk : lookupKey c
      (create_params_list device (metadataFor device dt) dt) with
  | none => rw [hlk] at he; cases he
  | some ps =>
      rw [hlk] at he
      obtain ⟨p, hp, hmap⟩ := List.mem_filterMap.mp he
      obtain ⟨nm, hnm, rfl⟩ := Option.map_eq_some'.mp hmap
      rfl

lemma filter_flatMap_notMem (device : HubDevice) (key : String)
    (dt : DeviceType) (l : List Nat) (ch : Nat) (h : ch ∉ l) :
    ((l.flatMap (entities_for_channel device key dt)).filter
      (fun e => e.channel == ch)) = [] := by
  induction l with
  | nil => rfl
  | cons c t ih =>
      have hc : ¬(c = ch) := fun e => h (e ▸ List.mem_cons_self c t)
      have ht : ch ∉ t := fun m => h (List.mem_cons_of_mem _ m)
      rw [List.flatMap_cons, List.filter_append, ih ht, List.append_nil]
      apply List.filter_eq_nil_iff.mpr
      intro e he
      have h2 := entities_channel_eq device key dt c e he
      simp [h2, hc]

lemma filter_flatMap_mem (device : HubDevice) (key : String)
    (dt : DeviceType) (l : List Nat) (ch : Nat)
    (hnd : l.Nodup) (hmem : ch ∈ l) :
    ((l.flatMap (entities_for_channel device key dt)).filter
      (fun e => e.channel == ch)) = entities_for_channel device key dt ch := by
  induction l with
  | nil => cases hmem
  | cons c t ih =>
      obtain ⟨hcnot, hndt⟩ := List.nodup_cons.mp hnd
      rw [List.flatMap_cons, List.filter_append]
      rcases List.mem_cons.mp hmem with hec | hmt
      · subst hec
        rw [filter_flatMap_notMem device key dt t ch hcnot, List.append_nil]
        apply List.filter_eq_self.mpr
        intro e he
        have h2 := entities_channel_eq device key dt ch e he
        simp [h2]
      · have hc : ¬(c = ch) := fun e => hcnot (e ▸ hmt)
        rw [ih hndt hmt]
        have hnil : (entities_for_channel device key dt c).filter
            (fun e => e.channel == ch) = [] := by
          apply List.filter_eq_nil_iff.mpr
          intro e he
          have h2 := entities_channel_eq device key dt c e he
          simp [h2, hc]
        rw [hnil, List.nil_append]

lemma map_fst_if_update {α β : Type} [DecidableEq α] (d : List (α × β))
    (k : α) (v : β) :
    ((d.map fun p => if p.1 = k then (k, v) else p).map Prod.fst)
      = d.map Prod.fst := by
  induction d with
  | nil => rfl
  | cons p t ih => by_cases hp : p.1 = k <;> simp [hp, ih]

lemma map_fst_dictUpdate {α β : Type} [DecidableEq α] (d : List (α × β))
    (k : α) (v : β) (h : (lookupKey k d).isSome = true) :
    (dictUpdate d k v).map Prod.fst = d.map Prod.fst := by
  unfold dictUpdate
  rw [if_pos h]
  exact map_fst_if_update d k v

/-! Claim theorems. -/

/-- C1: the claim states that the adapter event callback at node name
UNREACH with value v updates availability to the negation of v, matching
the `not self._hmdevice.UNREACH` rule of `link_homematic`.  The code
instead executes `self._available = bool(value)`: evaluated at the
failing input (a linked, available adapter receiving UNREACH with value
True) availability stays True where the claim demands False.  The refresh
is triggered, as the claim says. -/
theorem C1_unreach_event_available_polarity :
    (hm_event_callback demoLinked "UNREACH" (PyVal.bool true)).1.available
      = true ∧
    (hm_event_callback demoLinked "UNREACH" (PyVal.bool true)).2 = true :=
  ⟨rfl, rfl⟩

/-- C2: the claim states the event router never propagates an exception.
Evaluating the handler shows two raising payloads: a colon-free device
string raises IndexError (the except clause catches only TypeError and
ValueError), and a well-formed string whose address is unknown leaves
`hmdevice = None`, so the EVENTNODE membership test raises
AttributeError. -/
theorem C2_event_handler_propagates :
    hm_event_handler [] (some "ABC") "PRESS_SHORT" (PyVal.bool true)
      = Except.error PyExn.indexError ∧
    hm_event_handler [] (some "XYZ:1") "PRESS_SHORT" (PyVal.bool true)
      = Except.error PyExn.attributeError :=
  ⟨rfl, rfl⟩

/-- C3 counterexample: channel 0 is out of range in the claim sense
(below 1), yet the virtualkey service invokes the downstream action call,
because the source only checks `channel > hmdevice.ELEMENT`. -/
theorem C3_out_of_range_counterexample :
    ¬(1 ≤ (0 : Int)) ∧
    (hm_service_virtualkey [("ABC123", vkDevice)] "ABC123" 0 "PRESS_SHORT").2
      = [{ param := "PRESS_SHORT", value := 1, channel := 0 }] :=
  ⟨by decide, rfl⟩

/-- C3 (amended): for a known address whose parameter is an action node,
any channel not exceeding ELEMENT (including channels below 1) invokes
exactly one downstream action call with repeat-count 1, and a channel
exceeding ELEMENT produces a logged error and zero downstream calls; the
handler never raises. -/
theorem C3_virtualkey_channel_check (devices : List (String × HubDevice))
    (address : String) (channel : Int) (param : String) (dev : HubDevice)
    (hdev : lookupKey address devices = some dev)
    (hparam : (lookupKey param dev.ACTIONNODE).isSome = true) :
    (channel ≤ (dev.ELEMENT : Int) →
      hm_service_virtualkey devices address channel param
        = (VKResult.called,
           [{ param := param, value := 1, channel := channel }])) ∧
    ((dev.ELEMENT : Int) < channel →
      hm_service_virtualkey devices address channel param
        = (VKResult.badChannel, [])) := by
  constructor <;> intro hch <;>
    simp [hm_service_virtualkey, hdev, hparam] <;> omega

/-- C3 witness: an in-range call on the concrete fixture makes exactly
one downstream action call. -/
theorem C3_virtualkey_channel_check_witness :
    lookupKey "ABC123" [("ABC123", vkDevice)] = some vkDevice ∧
    (lookupKey "PRESS_SHORT" vkDevice.ACTIONNODE).isSome = true ∧
    hm_service_virtualkey [("ABC123", vkDevice)] "ABC123" 1 "PRESS_SHORT"
      = (VKResult.called,
         [{ param := "PRESS_SHORT", value := 1, channel := 1 }]) :=
  ⟨rfl, rfl,
    (C3_virtualkey_channel_check [("ABC123", vkDevice)] "ABC123" 1
      "PRESS_SHORT" vkDevice rfl rfl).1 (by decide)⟩

/-- C5: the parameter-list builder collects, per channel, exactly the
non-ignore-listed metadata node names whose channel indicator is the
string c or None, plus, on channel 1 only, nodes with a fixed channel
indicator; and a channel whose collected list is empty contributes no
entity for the merging categories but exactly one entity with a null
parameter for every other category. -/
theorem C5_params_list_and_merge (device : HubDevice) (key : String)
    (dt : DeviceType) (ch : Nat) (h1 : 1 ≤ ch) (h2 : ch ≤ device.ELEMENT)
    (hcls : device.className ∈ HM_DEVICE_TYPES dt) :
    (∀ metadata node, node ∈ param_chan metadata ch ↔
      ∃ m, (node, m) ∈ metadata ∧ node ∉ HM_IGNORE_DISCOVERY_NODE ∧
        (m = MetaChan.c ∨ m = MetaChan.null ∨
          (ch = 1 ∧ ∃ k, m = MetaChan.num k))) ∧
    (mergeFor dt = true → param_chan (metadataFor device dt) ch = [] →
      (get_devices_one key device dt).filter (fun e => e.channel == ch)
        = []) ∧
    (mergeFor dt = false → param_chan (metadataFor device dt) ch = [] →
      ∃ nm, create_ha_name device.NAME (ch : Int) Option.none = some nm ∧
        (get_devices_one key device dt).filter (fun e => e.channel == ch)
          = [{ platform := "homematic", address := key, name := nm,
               channel := ch, param := Option.none }]) := by
  refine ⟨fun metadata node => mem_param_chan metadata ch node, ?_, ?_⟩
  · intro hm hpc
    have hcp : chan_params (metadataFor device dt) (mergeFor dt) ch = [] := by
      simp [chan_params, hpc, hm]
    unfold get_devices_one
    rw [if_pos hcls]
    by_cases hemp : (create_params_list device (metadataFor device dt)
        dt).isEmpty = true
    · rw [if_pos hemp]; rfl
    · rw [if_neg hemp]
      rw [filter_flatMap_mem device key dt (channelsRange device.ELEMENT) ch
        (channelsRange_nodup _) (mem_channelsRange.mpr ⟨h1, h2⟩)]
      unfold entities_for_channel
      rw [create_params_list_lookup device _ dt ch h1 h2, hcp]
      simp
  · intro hm hpc
    have hcp : chan_params (metadataFor device dt) (mergeFor dt) ch
        = [Option.none] := by
      simp [chan_params, hpc, hm]
    obtain ⟨nm, hnm⟩ := Option.isSome_iff_exists.mp
      (create_ha_name_pos_total device.NAME (ch : Int) Option.none
        (by exact_mod_cast h1))
    refine ⟨nm, hnm, ?_⟩
    have hlkch : lookupKey ch
        (create_params_list device (metadataFor device dt) dt)
        = some [Option.none] := by
      rw [create_params_list_lookup device _ dt ch h1 h2, hcp]
      simp
    have hne : ¬((create_params_list device (metadataFor device dt)
        dt).isEmpty = true) := by
      intro he
      rw [List.isEmpty_iff.mp he] at hlkch
      cases hlkch
    unfold get_devices_one
    rw [if_pos hcls, if_neg hne]
    rw [filter_flatMap_mem device key dt (channelsRange device.ELEMENT) ch
      (channelsRange_nodup _) (mem_channelsRange.mpr ⟨h1, h2⟩)]
    unfold entities_for_channel
    rw [hlkch]
    simp [hnm]

/-- C5 witness: the Motion sensor scenario from the spec at channel 1 of
the sensor category. -/
theorem C5_params_list_and_merge_witness :
    1 ≤ motionDevice.ELEMENT ∧
    motionDevice.className ∈ HM_DEVICE_TYPES DeviceType.sensors ∧
    ("MOTION" ∈ param_chan motionDevice.SENSORNODE 1 ↔
      ∃ m, ("MOTION", m) ∈ motionDevice.SENSORNODE ∧
        "MOTION" ∉ HM_IGNORE_DISCOVERY_NODE ∧
        (m = MetaChan.c ∨ m = MetaChan.null ∨
          (1 = 1 ∧ ∃ k, m = MetaChan.num k))) :=
  ⟨by decide, by decide,
    (C5_params_list_and_merge motionDevice "ABC123" DeviceType.sensors 1
      (by decide) (by decide) (by decide)).1 motionDevice.SENSORNODE
      "MOTION"⟩

/-- C6: `_create_ha_name` is total for channel at least 1 and follows the
four branch rules exactly. -/
theorem C6_create_ha_name_total (name : String) (channel : Int)
    (param : Option String) (h : 1 ≤ channel) :
    (create_ha_name name channel param).isSome = true ∧
    (channel = 1 → param = Option.none →
      create_ha_name name channel param = some name) ∧
    (1 < channel → param = Option.none →
      create_ha_name name channel param
        = some (name ++ " " ++ toString channel)) ∧
    (∀ p, channel = 1 → param = some p →
      create_ha_name name channel param = some (name ++ " " ++ p)) ∧
    (∀ p, 1 < channel → param = some p →
      create_ha_name name channel param
        = some (name ++ " " ++ toString channel ++ " " ++ p)) := by
  refine ⟨create_ha_name_pos_total name channel param h, ?_, ?_, ?_, ?_⟩
  · rintro rfl rfl; simp [create_ha_name]
  · rintro hch rfl
    have h1 : channel ≠ 1 := by omega
    simp [create_ha_name, h1, hch]
  · rintro p rfl rfl; simp [create_ha_name]
  · rintro p hch rfl
    have h1 : channel ≠ 1 := by omega
    simp [create_ha_name, h1, hch]

/-- C6 witness: the spec example with channel 2 and a parameter. -/
theorem C6_create_ha_name_total_witness :
    (1 : Int) ≤ 2 ∧
    create_ha_name "Lamp" 2 (some "BRIGHTNESS")
      = some ("Lamp" ++ " " ++ toString (2 : Int) ++ " " ++ "BRIGHTNESS") :=
  ⟨by decide,
    (C6_create_ha_name_total "Lamp" 2 (some "BRIGHTNESS")
      (by decide)).2.2.2.2 "BRIGHTNESS" (by decide) rfl⟩

/-- C7: `link_homematic` on an already connected adapter returns True at
once, performs no RPC call (empty trace, so no read, no subscription and
no delay) and leaves the whole adapter state unchanged. -/
theorem C7_link_idempotent (env : LinkEnv) (s : HMDeviceState)
    (h : s.connected = true) :
    link_homematic env s = (some true, s, []) := by
  unfold link_homematic
  rw [if_pos h]

/-- C7 witness: the concrete linked fixture. -/
theorem C7_link_idempotent_witness :
    demoLinked.connected = true ∧
    link_homematic envNone demoLinked = (some true, demoLinked, []) :=
  ⟨rfl, C7_link_idempotent envNone demoLinked rfl⟩

/-- C8: with the hub connection present, `hm_set` coerces by the type of
the current value (boolean coercion on a boolean state, float parsing
otherwise), issues exactly one hub write with the coerced value, updates
the local state to it and signals a refresh; with the hub connection
absent it aborts with no write, no state change and no refresh. -/
theorem C8_hm_set_roundtrip (s : HMVariableState) (value : PyVal) :
    (∀ v, isBoolVal s.state = true → cv_boolean value = Except.ok v →
      hm_set true s value
        = ([(s.name, v)], { s with state := v }, true, Option.none)) ∧
    (∀ v, isBoolVal s.state = false → pyFloat value = Except.ok v →
      hm_set true s value
        = ([(s.name, v)], { s with state := v }, true, Option.none)) ∧
    hm_set false s value = ([], s, false, Option.none) := by
  refine ⟨?_, ?_, rfl⟩
  · intro v hb hc; simp [hm_set, hb, hc]
  · intro v hb hc; simp [hm_set, hb, hc]

/-- C8 witness: the spec round trip, `setOnHub(true)` on a Variable
holding boolean `false`. -/
theorem C8_hm_set_roundtrip_witness :
    isBoolVal (PyVal.bool false) = true ∧
    cv_boolean (PyVal.bool true) = Except.ok (PyVal.bool true) ∧
    hm_set true { name := "var", state := PyVal.bool false } (PyVal.bool true)
      = ([("var", PyVal.bool true)],
         { name := "var", state := PyVal.bool true }, true, Option.none) :=
  ⟨rfl, rfl,
    (C8_hm_set_roundtrip { name := "var", state := PyVal.bool false }
      (PyVal.bool true)).1 (PyVal.bool true) rfl rfl⟩

/-- C10: with the hub present and a non-boolean current value, a value
whose float conversion raises makes the exception escape `hm_set`, with
zero hub writes, the local state unchanged and no refresh signal (the
coercion runs before the write and the assignment). -/
theorem C10_hm_set_float_error_escapes (s : HMVariableState) (value : PyVal)
    (e : PyExn) (hb : isBoolVal s.state = false)
    (he : pyFloat value = Except.error e) :
    hm_set true s value = ([], s, false, some e) := by
  simp [hm_set, hb, he]

/-- C4: failure modes of `link_homematic` on an unlinked adapter, always
returning normally (the return type is total because the broad except of
the source catches any exception of the try block).  With the hub
connection absent it returns False; with an address unknown to the device
map it falls through returning None with nothing changed; when the try
block raises it returns None with the connected flag reset to false, and
nothing in the function retries. -/
theorem C4_link_failure_modes (env : LinkEnv) (s : HMDeviceState)
    (h : s.connected = false) :
    (env.devices = Option.none →
      link_homematic env s = (some false, s, [])) ∧
    (∀ devs, env.devices = some devs →
      lookupKey s.address devs = Option.none →
      link_homematic env s = (Option.none, s, [])) ∧
    (∀ devs dev t s2 e, env.devices = some devs →
      lookupKey s.address devs = some dev →
      link_try_body env dev { s with hmdevice := some dev, connected := true }
        = (t, s2, some e) →
      link_homematic env s
        = (Option.none, { s2 with connected := false }, t)) := by
  refine ⟨?_, ?_, ?_⟩
  · intro hd
    simp [link_homematic, h, hd]
  · intro devs hd hlk
    simp [link_homematic, h, hd, hlk]
  · intro devs dev t s2 e hd hlk hbody
    simp [link_homematic, h, hd, hlk, hbody]

/-- C4 witness: the hub-connection-absent case on the concrete unlinked
fixture. -/
theorem C4_link_failure_modes_witness :
    demoUnlinked.connected = false ∧
    link_homematic envNone demoUnlinked = (some false, demoUnlinked, []) :=
  ⟨rfl, (C4_link_failure_modes envNone demoUnlinked rfl).1 rfl⟩

/-- C9: the cache key set is fixed: an event for a node absent from the
cache and different from UNREACH leaves the whole state unchanged and
triggers no refresh; any event leaves the key set of the cache unchanged;
and `_hm_set_state` with a primary parameter absent from the cache leaves
the state unchanged. -/
theorem C9_cache_keys_fixed (s : HMDeviceState) (attrName : String)
    (value : PyVal) :
    (lookupKey attrName s.data = Option.none → attrName ≠ "UNREACH" →
      hm_event_callback s attrName value = (s, false)) ∧
    ((hm_event_callback s attrName value).1.data.map Prod.fst
      = s.data.map Prod.fst) ∧
    (∀ p, s.param = some p → lookupKey p s.data = Option.none →
      hm_set_state s value = s) := by
  refine ⟨?_, ?_, ?_⟩
  · intro h1 h2
    simp [hm_event_callback, h1, h2]
  · unfold hm_event_callback
    cases hlk : lookupKey attrName s.data with
    | none => simp
    | some old =>
        by_cases hne : old = value
        · simp [hne]
        · simp [hne, map_fst_dictUpdate _ _ _ (by rw [hlk]; rfl)]
  · intro p hp hlk
    simp [hm_set_state, hp, hlk]

/-- C9 witness: an event for a node outside the concrete cached fixture
is a silent no-op. -/
theorem C9_cache_keys_fixed_witness :
    lookupKey "FOO" demoCached.data = Option.none ∧
    hm_event_callback demoCached "FOO" (PyVal.int 1) = (demoCached, false) :=
  ⟨rfl,
    (C9_cache_keys_fixed demoCached "FOO" (PyVal.int 1)).1 rfl (by decide)⟩

/-- C10 witness: a numeric Variable written with an unparsable string. -/
theorem C10_hm_set_float_error_escapes_witness :
    isBoolVal (PyVal.float 0) = false ∧
    pyFloat (PyVal.str "abc") = Except.error PyExn.valueError ∧
    hm_set true { name := "var2", state := PyVal.float 0 } (PyVal.str "abc")
      = ([], { name := "var2", state := PyVal.float 0 }, false,
         some PyExn.valueError) :=
  ⟨rfl, rfl,
    C10_hm_set_float_error_escapes { name := "var2", state := PyVal.float 0 }
      (PyVal.str "abc") PyExn.valueError rfl rfl⟩
